import Mathlib

/-
Verification development for the resolver repository (TypeScript sources
src/abstract_syntax_tree.ts and src/parser.ts).  The data model, the
evaluator, the free-variable analysis and the combinator grammar are
shallowly embedded below; numbers are modelled by the rationals with a
separate NaN marker (non-finite and irrational results of JavaScript
float arithmetic collapse to NaN in the model; every input exercised by
the theorems stays in the exactly-representable fragment).
-/

namespace Resolver

/-- Runtime values, mirroring ExpressionResult in abstract_syntax_tree.ts:
number or boolean or string or null or list.  NaN is a separate marker for
the not-a-number number.  The undefined case is the JavaScript undefined value
(produced by out-of-range indexing).  Callable values are outside the model:
no claim concerns Apply, and in the model its typeof-function check always
fails, which is faithful for every environment holding no callables. -/
inductive Value where
  | num (q : ℚ)
  | nan
  | bool (b : Bool)
  | str (s : String)
  | null
  | undefined
  | list (l : List Value)

/-- Evaluation errors, one constructor per throw site in the sources. -/
inductive Err where
  | undefinedVariable (name : String)
  | invalidAssignmentTarget
  | notAnArray (v : Value)
  | indexNotANumber (v : Value)
  | fromIndexNotANumber (v : Value)
  | toIndexNotANumber (v : Value)
  | notAFunction (v : Value)
  | negativeFactorial (v : Value)

/-- Abstract syntax tree nodes; one constructor per concrete Expression
class of abstract_syntax_tree.ts, keeping the source class names
(including the LessThen spelling). -/
inductive Expr where
  | Number (n : ℚ)
  | Boolean (b : Bool)
  | String (s : String)
  | Variable (name : String)
  | Negate (e : Expr)
  | Factorial (e : Expr)
  | Not (e : Expr)
  | And (l r : Expr)
  | Or (l r : Expr)
  | Assignment (l r : Expr)
  | Addition (l r : Expr)
  | Subtraction (l r : Expr)
  | Equality (l r : Expr)
  | InEquality (l r : Expr)
  | LessThen (l r : Expr)
  | GreaterThen (l r : Expr)
  | LessThenEq (l r : Expr)
  | GreaterThenEq (l r : Expr)
  | Exponentiate (l r : Expr)
  | Multiply (l r : Expr)
  | Divide (l r : Expr)
  | Modulo (l r : Expr)
  | Condition (c a b : Expr)
  | Index (l i : Expr)
  | Slice (l f t : Expr)
  | List (es : List Expr)
  | Apply (f : Expr) (args : List Expr)

/-- The instanceof Variable check used by Assignment.resolve and
Assignment.freeVariables. -/
def Expr.isVariableB : Expr → Bool
  | .Variable _ => true
  | _ => false

/-- Environment: the mutable object mapping variable names to values.
Modelled as an association list in insertion order (JavaScript object
property order); lookup takes the first match. -/
abbrev Env := List (String × Value)

/-- Property read environment[key]. -/
def envLookup : Env → String → Option Value
  | [], _ => none
  | (k, v) :: rest, key => if k = key then some v else envLookup rest key

/-- Property write environment[key] = value: overwrite in place if the key
exists, else append (JavaScript object insertion-order semantics). -/
def envSet : Env → String → Value → Env
  | [], key, value => [(key, value)]
  | (k, v) :: rest, key, value =>
      if k = key then (k, value) :: rest else (k, v) :: envSet rest key value

/-- environment.hasOwnProperty(key). -/
def envHas (env : Env) (key : String) : Bool :=
  (envLookup env key).isSome

/-- JavaScript truthiness: false, 0, NaN, the empty string, null and
undefined are falsy; everything else (any list included) is truthy. -/
def truthy : Value → Bool
  | .num q => decide (q ≠ 0)
  | .nan => false
  | .bool b => b
  | .str s => !s.isEmpty
  | .null => false
  | .undefined => false
  | .list _ => true

mutual

/-- JavaScript ToString on the modelled values.  Integers print with no
fraction; the formatting of non-integer numbers is approximated by the
rational printer (no theorem depends on it). -/
def jsToString : Value → String
  | .num q => if q.den = 1 then toString q.num else toString q
  | .nan => "NaN"
  | .bool b => if b then "true" else "false"
  | .str s => s
  | .null => "null"
  | .undefined => "undefined"
  | .list l => jsToStringList l

/-- Array.prototype.toString: comma-joined elements, null and undefined
elements printing as the empty string. -/
def jsToStringList : List Value → String
  | [] => ""
  | [.null] => ""
  | [.undefined] => ""
  | [v] => jsToString v
  | .null :: rest => "," ++ jsToStringList rest
  | .undefined :: rest => "," ++ jsToStringList rest
  | v :: rest => jsToString v ++ "," ++ jsToStringList rest

end

/-- JavaScript ToPrimitive with number hint: arrays convert through their
toString join; every other modelled value is already primitive. -/
def toPrimitive : Value → Value
  | .list l => .str (jsToStringList l)
  | v => v

/-- Left fold of a decimal digit run: returns the value, the number of
digits consumed and the remaining characters. -/
def readDigits : Nat → List Char → Nat × Nat × List Char
  | acc, [] => (acc, 0, [])
  | acc, c :: rest =>
      if c.isDigit then
        let (v, n, r) := readDigits (acc * 10 + (c.toNat - '0'.toNat)) rest
        (v, n + 1, r)
      else (acc, 0, c :: rest)

/-- JavaScript ToNumber on a string (the Number coercion, not parseFloat):
the trimmed empty string is 0; an optional sign followed by a decimal
literal parses exactly; anything else is NaN (none).  Hexadecimal and
exponent forms are outside the model; no theorem depends on them. -/
def strToNumber (s : String) : Option ℚ :=
  let t := s.trim
  if t.isEmpty then some 0 else
  let (sign, cs) : ℚ × List Char :=
    match t.data with
    | '-' :: rest => (-1, rest)
    | '+' :: rest => (1, rest)
    | cs => (1, cs)
  let (ip, ipCount, rest1) := readDigits 0 cs
  match rest1 with
  | [] => if ipCount = 0 then none else some (sign * ip)
  | '.' :: rest2 =>
      let (fp, fpCount, rest3) := readDigits 0 rest2
      if rest3 = [] ∧ ipCount + fpCount > 0 then
        some (sign * ((ip : ℚ) + (fp : ℚ) / (10 : ℚ) ^ fpCount))
      else none
  | _ => none

/-- JavaScript ToNumber on a primitive value; none stands for NaN. -/
def toNumPrim : Value → Option ℚ
  | .num q => some q
  | .nan => none
  | .bool b => some (if b then 1 else 0)
  | .str s => strToNumber s
  | .null => some 0
  | .undefined => none
  | .list l => strToNumber (jsToStringList l)

/-- ToNumber after ToPrimitive, the coercion every numeric operator uses. -/
def toNum (v : Value) : Option ℚ :=
  toNumPrim (toPrimitive v)

/-- Strict equality (the === operator).  NaN compares unequal to
everything, itself included; lists compare by object identity in
JavaScript, which a pure embedding cannot witness, so two list values
compare unequal here (no theorem depends on list comparison). -/
def strictEq : Value → Value → Bool
  | .num x, .num y => decide (x = y)
  | .bool x, .bool y => x == y
  | .str x, .str y => x == y
  | .null, .null => true
  | .undefined, .undefined => true
  | _, _ => false

/-- The JavaScript binary + : if either operand is a string after
ToPrimitive the operands concatenate as strings, otherwise both convert
with ToNumber and add (NaN absorbing). -/
def jsAdd (a b : Value) : Value :=
  match toPrimitive a, toPrimitive b with
  | .str s, pb => .str (s ++ jsToString pb)
  | pa, .str s => .str (jsToString pa ++ s)
  | pa, pb =>
      match toNumPrim pa, toNumPrim pb with
      | some x, some y => .num (x + y)
      | _, _ => .nan

/-- Unary minus: ToNumber then negate. -/
def jsNeg (v : Value) : Value :=
  match toNum v with
  | some x => .num (-x)
  | none => .nan

def jsSub (a b : Value) : Value :=
  match toNum a, toNum b with
  | some x, some y => .num (x - y)
  | _, _ => .nan

def jsMul (a b : Value) : Value :=
  match toNum a, toNum b with
  | some x, some y => .num (x * y)
  | _, _ => .nan

/-- Division; a zero divisor gives Infinity or NaN in JavaScript, both of
which collapse to the NaN marker of the model. -/
def jsDiv (a b : Value) : Value :=
  match toNum a, toNum b with
  | some x, some y => if y = 0 then .nan else .num (x / y)
  | _, _ => .nan

/-- Truncation toward zero of a rational, as ToIntegerOrInfinity and the
float remainder use it. -/
def ratTrunc (q : ℚ) : ℤ :=
  Int.tdiv q.num (q.den : ℤ)

/-- The % operator: remainder with the sign of the dividend,
x - y * trunc(x / y); zero divisor gives NaN. -/
def jsMod (a b : Value) : Value :=
  match toNum a, toNum b with
  | some x, some y =>
      if y = 0 then .nan else .num (x - y * ((ratTrunc (x / y) : ℤ) : ℚ))
  | _, _ => .nan

/-- Iterated product for exponentiation by a natural. -/
def qpow (q : ℚ) : Nat → ℚ
  | 0 => 1
  | n + 1 => qpow q n * q

/-- Math.pow: an exponent of zero gives 1 whatever the base; an integral
exponent gives the exact power (negative exponents through the rational
inverse, with the zero-base infinity collapsing to NaN); a fractional
exponent has an irrational or complex result outside the model and
collapses to NaN. -/
def jsPow (a b : Value) : Value :=
  match toNum b with
  | some y =>
      if y = 0 then .num 1
      else
        match toNum a with
        | some x =>
            if y.den = 1 then
              if 0 ≤ y.num then .num (qpow x y.num.toNat)
              else if x = 0 then .nan
              else .num (qpow x (-y.num).toNat)⁻¹
            else .nan
        | none => .nan
  | none => .nan

/-- The < operator: string against string compares lexicographically,
anything else numerically with NaN making the comparison false. -/
def jsLt (a b : Value) : Bool :=
  match toPrimitive a, toPrimitive b with
  | .str s1, .str s2 => decide (s1 < s2)
  | pa, pb =>
      match toNumPrim pa, toNumPrim pb with
      | some x, some y => decide (x < y)
      | _, _ => false

/-- The <= operator: the negation of the reversed < except that NaN makes
the comparison false. -/
def jsLe (a b : Value) : Bool :=
  match toPrimitive a, toPrimitive b with
  | .str s1, .str s2 => decide (¬ s2 < s1)
  | pa, pb =>
      match toNumPrim pa, toNumPrim pb with
      | some x, some y => decide (x ≤ y)
      | _, _ => false

/-- typeof v === "number" (NaN is a number). -/
def Value.isNumber : Value → Bool
  | .num _ => true
  | .nan => true
  | _ => false

/-- Element read list[index] for a numeric index: an exact in-range
integer position reads the element, everything else (negative, too large,
fractional, NaN) reads an absent property and gives undefined. -/
def jsIndex (xs : List Value) (iv : Value) : Value :=
  match iv with
  | .num q =>
      if q.den = 1 ∧ 0 ≤ q.num then
        match xs.get? q.num.toNat with
        | some v => v
        | none => .undefined
      else .undefined
  | _ => .undefined

/-- Array.prototype.slice index resolution: truncate toward zero, count
negative indices from the end, clamp to the extent (NaN truncates to 0). -/
def sliceBound (len : ℤ) (v : Value) : ℤ :=
  let i : ℤ := match v with
    | .num q => ratTrunc q
    | _ => 0
  if i < 0 then max (len + i) 0 else min i len

/-- list.slice(from, to). -/
def jsSlice (xs : List Value) (f t : Value) : List Value :=
  let len : ℤ := xs.length
  let s := sliceBound len f
  let e := sliceBound len t
  ((xs.drop s.toNat).take (e - s).toNat)

/-- The iterative factorial loop of Factorial.resolve, in closed form:
the loop for i = 2; i <= value; i++ runs exactly while i is at most the
numeric coercion of the value, so it multiplies 2 up to the floor (and a
NaN bound never iterates, leaving 1). -/
def factNat : Nat → Nat
  | 0 => 1
  | n + 1 => factNat n * (n + 1)

def factorialLoop (v : Value) : ℚ :=
  match toNum v with
  | some q => (factNat (Int.tdiv q.num (q.den : ℤ)).toNat : ℚ)
  | none => 1

mutual

/-- Expression.resolve of abstract_syntax_tree.ts: evaluate against the
shared mutable environment.  The pair returns the thrown error or the
value, together with the environment as mutated up to that point (a
JavaScript throw leaves earlier assignment writes in place). -/
def resolve : Expr → Env → Except Err Value × Env
  | .Number n, env => (.ok (.num n), env)
  | .Boolean b, env => (.ok (.bool b), env)
  | .String s, env => (.ok (.str s), env)
  | .Variable x, env =>
      match envLookup env x with
      | some .undefined => (.error (.undefinedVariable x), env)
      | some v => (.ok v, env)
      | none => (.error (.undefinedVariable x), env)
  | .Negate e, env =>
      match resolve e env with
      | (.ok v, env1) => (.ok (jsNeg v), env1)
      | (.error er, env1) => (.error er, env1)
  | .Factorial e, env =>
      match resolve e env with
      | (.ok v, env1) =>
          if jsLt v (.num 0) then (.error (.negativeFactorial v), env1)
          else (.ok (.num (factorialLoop v)), env1)
      | (.error er, env1) => (.error er, env1)
  | .Not e, env =>
      match resolve e env with
      | (.ok v, env1) => (.ok (.bool (!truthy v)), env1)
      | (.error er, env1) => (.error er, env1)
  | .And l r, env =>
      -- the && operator short-circuits: a falsy left value is returned
      -- without evaluating the right operand
      match resolve l env with
      | (.ok v1, env1) => if truthy v1 then resolve r env1 else (.ok v1, env1)
      | (.error er, env1) => (.error er, env1)
  | .Or l r, env =>
      -- the || operator short-circuits: a truthy left value is returned
      -- without evaluating the right operand
      match resolve l env with
      | (.ok v1, env1) => if truthy v1 then (.ok v1, env1) else resolve r env1
      | (.error er, env1) => (.error er, env1)
  | .Assignment (.Variable x) r, env =>
      -- left.freeVariables({}) on a Variable is the singleton of its name;
      -- the resolved right value is written under it and returned
      match resolve r env with
      | (.ok v, env1) => (.ok v, envSet env1 x v)
      | (.error er, env1) => (.error er, env1)
  | .Assignment _ _, env => (.error .invalidAssignmentTarget, env)
  | .Addition l r, env =>
      match resolve l env with
      | (.ok v1, env1) =>
          match resolve r env1 with
          | (.ok v2, env2) => (.ok (jsAdd v1 v2), env2)
          | (.error er, env2) => (.error er, env2)
      | (.error er, env1) => (.error er, env1)
  | .Subtraction l r, env =>
      match resolve l env with
      | (.ok v1, env1) =>
          match resolve r env1 with
          | (.ok v2, env2) => (.ok (jsSub v1 v2), env2)
          | (.error er, env2) => (.error er, env2)
      | (.error er, env1) => (.error er, env1)
  | .Equality l r, env =>
      match resolve l env with
      | (.ok v1, env1) =>
          match resolve r env1 with
          | (.ok v2, env2) => (.ok (.bool (strictEq v1 v2)), env2)
          | (.error er, env2) => (.error er, env2)
      | (.error er, env1) => (.error er, env1)
  | .InEquality l r, env =>
      -- the source body of InEquality.resolve is identical to
      -- Equality.resolve: the same === comparison, not its negation
      match resolve l env with
      | (.ok v1, env1) =>
          match resolve r env1 with
          | (.ok v2, env2) => (.ok (.bool (strictEq v1 v2)), env2)
          | (.error er, env2) => (.error er, env2)
      | (.error er, env1) => (.error er, env1)
  | .LessThen l r, env =>
      match resolve l env with
      | (.ok v1, env1) =>
          match resolve r env1 with
          | (.ok v2, env2) => (.ok (.bool (jsLt v1 v2)), env2)
          | (.error er, env2) => (.error er, env2)
      | (.error er, env1) => (.error er, env1)
  | .GreaterThen l r, env =>
      match resolve l env with
      | (.ok v1, env1) =>
          match resolve r env1 with
          | (.ok v2, env2) => (.ok (.bool (jsLt v2 v1)), env2)
          | (.error er, env2) => (.error er, env2)
      | (.error er, env1) => (.error er, env1)
  | .LessThenEq l r, env =>
      match resolve l env with
      | (.ok v1, env1) =>
          match resolve r env1 with
          | (.ok v2, env2) => (.ok (.bool (jsLe v1 v2)), env2)
          | (.error er, env2) => (.error er, env2)
      | (.error er, env1) => (.error er, env1)
  | .GreaterThenEq l r, env =>
      match resolve l env with
      | (.ok v1, env1) =>
          match resolve r env1 with
          | (.ok v2, env2) => (.ok (.bool (jsLe v2 v1)), env2)
          | (.error er, env2) => (.error er, env2)
      | (.error er, env1) => (.error er, env1)
  | .Exponentiate l r, env =>
      match resolve l env with
      | (.ok v1, env1) =>
          match resolve r env1 with
          | (.ok v2, env2) => (.ok (jsPow v1 v2), env2)
          | (.error er, env2) => (.error er, env2)
      | (.error er, env1) => (.error er, env1)
  | .Multiply l r, env =>
      match resolve l env with
      | (.ok v1, env1) =>
          match resolve r env1 with
          | (.ok v2, env2) => (.ok (jsMul v1 v2), env2)
          | (.error er, env2) => (.error er, env2)
      | (.error er, env1) => (.error er, env1)
  | .Divide l r, env =>
      match resolve l env with
      | (.ok v1, env1) =>
          match resolve r env1 with
          | (.ok v2, env2) => (.ok (jsDiv v1 v2), env2)
          | (.error er, env2) => (.error er, env2)
      | (.error er, env1) => (.error er, env1)
  | .Modulo l r, env =>
      match resolve l env with
      | (.ok v1, env1) =>
          match resolve r env1 with
          | (.ok v2, env2) => (.ok (jsMod v1 v2), env2)
          | (.error er, env2) => (.error er, env2)
      | (.error er, env1) => (.error er, env1)
  | .Condition c a b, env =>
      -- the taken branch alone is evaluated
      match resolve c env with
      | (.ok v, env1) => if truthy v then resolve a env1 else resolve b env1
      | (.error er, env1) => (.error er, env1)
  | .Index l i, env =>
      match resolve l env with
      | (.ok (.list xs), env1) =>
          match resolve i env1 with
          | (.ok iv, env2) =>
              if iv.isNumber then (.ok (jsIndex xs iv), env2)
              else (.error (.indexNotANumber iv), env2)
          | (.error er, env2) => (.error er, env2)
      | (.ok v, env1) => (.error (.notAnArray v), env1)
      | (.error er, env1) => (.error er, env1)
  | .Slice l f t, env =>
      match resolve l env with
      | (.ok (.list xs), env1) =>
          match resolve f env1 with
          | (.ok fv, env2) =>
              if fv.isNumber then
                match resolve t env2 with
                | (.ok tv, env3) =>
                    if tv.isNumber then (.ok (.list (jsSlice xs fv tv)), env3)
                    else (.error (.toIndexNotANumber tv), env3)
                | (.error er, env3) => (.error er, env3)
              else (.error (.fromIndexNotANumber fv), env2)
          | (.error er, env2) => (.error er, env2)
      | (.ok v, env1) => (.error (.notAnArray v), env1)
      | (.error er, env1) => (.error er, env1)
  | .List es, env =>
      match resolveList es env with
      | (.ok vs, env1) => (.ok (.list vs), env1)
      | (.error er, env1) => (.error er, env1)
  | .Apply f _, env =>
      -- callable values are outside the model, so the typeof-function
      -- check always fails after the callee resolves
      match resolve f env with
      | (.ok v, env1) => (.error (.notAFunction v), env1)
      | (.error er, env1) => (.error er, env1)

/-- Left-to-right evaluation of a list of expressions (List elements). -/
def resolveList : List Expr → Env → Except Err (List Value) × Env
  | [], env => (.ok [], env)
  | e :: rest, env =>
      match resolve e env with
      | (.ok v, env1) =>
          match resolveList rest env1 with
          | (.ok vs, env2) => (.ok (v :: vs), env2)
          | (.error er, env2) => (.error er, env2)
      | (.error er, env1) => (.error er, env1)

end

/-- Set.add on the insertion-ordered list model of a JavaScript Set. -/
def setAdd (acc : List String) (x : String) : List String :=
  if x ∈ acc then acc else acc ++ [x]

/-- forEach element of the second set, add it to the first. -/
def setUnion (xs ys : List String) : List String :=
  ys.foldl setAdd xs

mutual

/-- Expression.freeVariables of abstract_syntax_tree.ts.  The analysis
threads the very environment object the caller passed: the Assignment case
writes a null binding for its target into it (and never removes it), which
is how names bound earlier in the same walk are suppressed.  The pair
returns the thrown error or the set (in insertion order), together with
the environment as mutated so far. -/
def freeVariables : Expr → Env → Except Err (List String) × Env
  | .Number _, env => (.ok [], env)
  | .Boolean _, env => (.ok [], env)
  | .String _, env => (.ok [], env)
  | .Variable x, env =>
      (.ok (if envHas env x then [] else [x]), env)
  -- UnaryOperator.freeVariables: the set of the operand
  | .Negate e, env => freeVariables e env
  | .Factorial e, env => freeVariables e env
  | .Not e, env => freeVariables e env
  -- Assignment.freeVariables overrides the binary default: it requires a
  -- Variable target, writes null under the target name into the shared
  -- environment, then analyzes only the right operand
  | .Assignment (.Variable x) r, env => freeVariables r (envSet env x .null)
  | .Assignment _ _, env => (.error .invalidAssignmentTarget, env)
  -- BinaryOperator.freeVariables: a fresh set fed with the left set then
  -- the right set, both children analyzed against the same environment
  | .And l r, env =>
      match freeVariables l env with
      | (.ok s1, env1) =>
          match freeVariables r env1 with
          | (.ok s2, env2) => (.ok (setUnion (setUnion [] s1) s2), env2)
          | (.error er, env2) => (.error er, env2)
      | (.error er, env1) => (.error er, env1)
  | .Or l r, env =>
      match freeVariables l env with
      | (.ok s1, env1) =>
          match freeVariables r env1 with
          | (.ok s2, env2) => (.ok (setUnion (setUnion [] s1) s2), env2)
          | (.error er, env2) => (.error er, env2)
      | (.error er, env1) => (.error er, env1)
  | .Addition l r, env =>
      match freeVariables l env with
      | (.ok s1, env1) =>
          match freeVariables r env1 with
          | (.ok s2, env2) => (.ok (setUnion (setUnion [] s1) s2), env2)
          | (.error er, env2) => (.error er, env2)
      | (.error er, env1) => (.error er, env1)
  | .Subtraction l r, env =>
      match freeVariables l env with
      | (.ok s1, env1) =>
          match freeVariables r env1 with
          | (.ok s2, env2) => (.ok (setUnion (setUnion [] s1) s2), env2)
          | (.error er, env2) => (.error er, env2)
      | (.error er, env1) => (.error er, env1)
  | .Equality l r, env =>
      match freeVariables l env with
      | (.ok s1, env1) =>
          match freeVariables r env1 with
          | (.ok s2, env2) => (.ok (setUnion (setUnion [] s1) s2), env2)
          | (.error er, env2) => (.error er, env2)
      | (.error er, env1) => (.error er, env1)
  | .InEquality l r, env =>
      match freeVariables l env with
      | (.ok s1, env1) =>
          match freeVariables r env1 with
          | (.ok s2, env2) => (.ok (setUnion (setUnion [] s1) s2), env2)
          | (.error er, env2) => (.error er, env2)
      | (.error er, env1) => (.error er, env1)
  | .LessThen l r, env =>
      match freeVariables l env with
      | (.ok s1, env1) =>
          match freeVariables r env1 with
          | (.ok s2, env2) => (.ok (setUnion (setUnion [] s1) s2), env2)
          | (.error er, env2) => (.error er, env2)
      | (.error er, env1) => (.error er, env1)
  | .GreaterThen l r, env =>
      match freeVariables l env with
      | (.ok s1, env1) =>
          match freeVariables r env1 with
          | (.ok s2, env2) => (.ok (setUnion (setUnion [] s1) s2), env2)
          | (.error er, env2) => (.error er, env2)
      | (.error er, env1) => (.error er, env1)
  | .LessThenEq l r, env =>
      match freeVariables l env with
      | (.ok s1, env1) =>
          match freeVariables r env1 with
          | (.ok s2, env2) => (.ok (setUnion (setUnion [] s1) s2), env2)
          | (.error er, env2) => (.error er, env2)
      | (.error er, env1) => (.error er, env1)
  | .GreaterThenEq l r, env =>
      match freeVariables l env with
      | (.ok s1, env1) =>
          match freeVariables r env1 with
          | (.ok s2, env2) => (.ok (setUnion (setUnion [] s1) s2), env2)
          | (.error er, env2) => (.error er, env2)
      | (.error er, env1) => (.error er, env1)
  | .Exponentiate l r, env =>
      match freeVariables l env with
      | (.ok s1, env1) =>
          match freeVariables r env1 with
          | (.ok s2, env2) => (.ok (setUnion (setUnion [] s1) s2), env2)
          | (.error er, env2) => (.error er, env2)
      | (.error er, env1) => (.error er, env1)
  | .Multiply l r, env =>
      match freeVariables l env with
      | (.ok s1, env1) =>
          match freeVariables r env1 with
          | (.ok s2, env2) => (.ok (setUnion (setUnion [] s1) s2), env2)
          | (.error er, env2) => (.error er, env2)
      | (.error er, env1) => (.error er, env1)
  | .Divide l r, env =>
      match freeVariables l env with
      | (.ok s1, env1) =>
          match freeVariables r env1 with
          | (.ok s2, env2) => (.ok (setUnion (setUnion [] s1) s2), env2)
          | (.error er, env2) => (.error er, env2)
      | (.error er, env1) => (.error er, env1)
  | .Modulo l r, env =>
      match freeVariables l env with
      | (.ok s1, env1) =>
          match freeVariables r env1 with
          | (.ok s2, env2) => (.ok (setUnion (setUnion [] s1) s2), env2)
          | (.error er, env2) => (.error er, env2)
      | (.error er, env1) => (.error er, env1)
  | .Condition c a b, env =>
      match freeVariables c env with
      | (.ok s1, env1) =>
          match freeVariables a env1 with
          | (.ok s2, env2) =>
              match freeVariables b env2 with
              | (.ok s3, env3) => (.ok (setUnion (setUnion (setUnion [] s1) s2) s3), env3)
              | (.error er, env3) => (.error er, env3)
          | (.error er, env2) => (.error er, env2)
      | (.error er, env1) => (.error er, env1)
  | .Index l i, env =>
      match freeVariables l env with
      | (.ok s1, env1) =>
          match freeVariables i env1 with
          | (.ok s2, env2) => (.ok (setUnion (setUnion [] s1) s2), env2)
          | (.error er, env2) => (.error er, env2)
      | (.error er, env1) => (.error er, env1)
  | .Slice l f t, env =>
      match freeVariables l env with
      | (.ok s1, env1) =>
          match freeVariables f env1 with
          | (.ok s2, env2) =>
              match freeVariables t env2 with
              | (.ok s3, env3) => (.ok (setUnion (setUnion (setUnion [] s1) s2) s3), env3)
              | (.error er, env3) => (.error er, env3)
          | (.error er, env2) => (.error er, env2)
      | (.error er, env1) => (.error er, env1)
  | .List es, env => freeVariablesList es env
  | .Apply f args, env =>
      match freeVariables f env with
      | (.ok s1, env1) =>
          match freeVariablesList args env1 with
          | (.ok s2, env2) => (.ok (setUnion (setUnion [] s1) s2), env2)
          | (.error er, env2) => (.error er, env2)
      | (.error er, env1) => (.error er, env1)

/-- Element-wise collection for List.freeVariables and the argument part
of Apply.freeVariables. -/
def freeVariablesList : List Expr → Env → Except Err (List String) × Env
  | [], env => (.ok [], env)
  | e :: rest, env =>
      match freeVariables e env with
      | (.ok s1, env1) =>
          match freeVariablesList rest env1 with
          | (.ok s2, env2) => (.ok (setUnion (setUnion [] s1) s2), env2)
          | (.error er, env2) => (.error er, env2)
      | (.error er, env1) => (.error er, env1)

end

/-
Combinator grammar of parser.ts.  The parsimmon engine is a PEG: a parse
either fails or succeeds with a value and the rest of the input, ordered
choice retries the next alternative from the position where the failed one
started, and repetition is greedy.  Recursive productions carry a fuel
counter; parse is invoked with fuel far above what any input can consume,
so exhaustion is unreachable (running out of fuel fails the parse).
-/

/-- A parser over character lists. -/
abbrev P (α : Type) := List Char → Option (α × List Char)

/-- parsimmon.succeed. -/
def pPure {α : Type} (a : α) : P α := fun s => some (a, s)

/-- Sequencing (seq and chain). -/
def pBind {α β : Type} (p : P α) (f : α → P β) : P β := fun s =>
  match p s with
  | some (a, s1) => f a s1
  | none => none

def pMap {α β : Type} (f : α → β) (p : P α) : P β :=
  pBind p (fun a => pPure (f a))

/-- Ordered choice (the or combinator): the second alternative starts
again from the original position. -/
def pOr {α : Type} (p q : P α) : P α := fun s =>
  match p s with
  | some r => some r
  | none => q s

def pFail {α : Type} : P α := fun _ => none

/-- parsimmon.alt: ordered choice over a list of alternatives. -/
def pAlt {α : Type} (ps : List (P α)) : P α :=
  ps.foldr pOr pFail

/-- Consume an exact literal (parsimmon.string). -/
def pLit (lit : String) : P Unit :=
  let rec go : List Char → List Char → Option (List Char)
    | [], s => some s
    | _, [] => none
    | c :: cs, d :: ds => if c = d then go cs ds else none
  fun s => match go lit.data s with
  | some rest => some ((), rest)
  | none => none

/-- parsimmon.optWhitespace: consume any run of whitespace. -/
def pWs : P Unit := fun s =>
  some ((), s.dropWhile Char.isWhitespace)

/-- The trim(optWhitespace) wrapper on a token. -/
def pTrim {α : Type} (p : P α) : P α :=
  pBind pWs (fun _ => pBind p (fun a => pBind pWs (fun _ => pPure a)))

/-- Greedy repetition (the many combinator), fuel-bounded. -/
def pMany {α : Type} : Nat → P α → P (List α)
  | 0, _ => pFail
  | fuel + 1, p =>
      pOr (pBind p (fun a => pMap (fun as => a :: as) (pMany fuel p)))
          (pPure [])

/-- parsimmon sepBy: one-or-more separated list, or the empty list. -/
def pSepBy {α : Type} (fuel : Nat) (p : P α) (sep : P Unit) : P (List α) :=
  pOr (pBind p (fun first =>
        pMap (fun rest => first :: rest) (pMany fuel (pBind sep (fun _ => p)))))
      (pPure [])

/-- One or more decimal digits: value and count (regexp [0-9]+). -/
def pDigits1 : P (Nat × Nat) := fun s =>
  let (v, n, r) := readDigits 0 s
  if n = 0 then none else some ((v, n), r)

/-- Zero or more decimal digits: value and count (regexp [0-9]*). -/
def pDigits0 : P (Nat × Nat) := fun s =>
  let (v, n, r) := readDigits 0 s
  some ((v, n), r)

/-- The number literal regexp of parser.ts, alternatives in source order:
digits dot digits, then dot digits, then digits dot, then digits; the
matched text goes through parseFloat, modelled as the exact decimal. -/
def pNumberLit : P ℚ :=
  pAlt
    [ pBind pDigits1 (fun ip => pBind (pLit ".") (fun _ =>
        pMap (fun fp => (ip.1 : ℚ) + (fp.1 : ℚ) / (10 : ℚ) ^ fp.2) pDigits1)),
      pBind pDigits0 (fun ip => pBind (pLit ".") (fun _ =>
        pMap (fun fp => (ip.1 : ℚ) + (fp.1 : ℚ) / (10 : ℚ) ^ fp.2) pDigits1)),
      pBind pDigits1 (fun ip => pBind (pLit ".") (fun _ =>
        pMap (fun fp => (ip.1 : ℚ) + (fp.1 : ℚ) / (10 : ℚ) ^ fp.2) pDigits0)),
      pMap (fun ip => (ip.1 : ℚ)) pDigits1 ]

/-- The True and False literals. -/
def pBool : P Expr :=
  pOr (pMap (fun _ => Expr.Boolean true) (pLit "True"))
      (pMap (fun _ => Expr.Boolean false) (pLit "False"))

/-- Identifier regexp [A-Za-z_][A-Za-z0-9_.]* (dots are part of the
name). -/
def pVariableName : P String := fun s =>
  match s with
  | [] => none
  | c :: rest =>
      if c.isAlpha ∨ c = '_' then
        let run := rest.takeWhile (fun d => d.isAlphanum ∨ d = '_' ∨ d = '.')
        some (String.mk (c :: run), rest.drop run.length)
      else none

/-- A double- or single-quoted string literal, the content any run of
characters other than the matching quote, no escapes. -/
def pStringLit : P String :=
  let quoted (q : Char) : P String := fun s =>
    match s with
    | c :: rest =>
        if c = q then
          let content := rest.takeWhile (fun d => ¬ d = q)
          match rest.drop content.length with
          | d :: rest2 => if d = q then some (String.mk content, rest2) else none
          | [] => none
        else none
    | [] => none
  pOr (quoted '"') (quoted '\'')

/-- One row of createOperatorParser: the trimmed operator token yielding a
node constructor. -/
def pOp2 (tok : String) (ctor : Expr → Expr → Expr) : P (Expr → Expr → Expr) :=
  pMap (fun _ => ctor) (pTrim (pLit tok))

def pOp1 (tok : String) (ctor : Expr → Expr) : P (Expr → Expr) :=
  pMap (fun _ => ctor) (pTrim (pLit tok))

/-- The operator rows of the associativity table of parser.ts, in source
order (within the relational row the two-character tokens come first). -/
def expOps : P (Expr → Expr → Expr) := pAlt [pOp2 "**" .Exponentiate]

def negOps : P (Expr → Expr) := pAlt [pOp1 "-" .Negate]

def mulOps : P (Expr → Expr → Expr) :=
  pAlt [pOp2 "*" .Multiply, pOp2 "/" .Divide, pOp2 "%" .Modulo]

def addOps : P (Expr → Expr → Expr) :=
  pAlt [pOp2 "+" .Addition, pOp2 "-" .Subtraction]

def relOps : P (Expr → Expr → Expr) :=
  pAlt [pOp2 "==" .Equality, pOp2 "!=" .InEquality,
        pOp2 "<=" .LessThenEq, pOp2 ">=" .GreaterThenEq,
        pOp2 "<" .LessThen, pOp2 ">" .GreaterThen]

def notOps : P (Expr → Expr) := pAlt [pOp1 "not" .Not]

def andOps : P (Expr → Expr → Expr) := pAlt [pOp2 "and" .And]

def orOps : P (Expr → Expr → Expr) := pAlt [pOp2 "or" .Or]

def assignOps : P (Expr → Expr → Expr) := pAlt [pOp2 ":=" .Assignment]

/-- leftAssociativeBinaryOperatorParser: one operand, then greedily many
(operator, operand) pairs, left-folded. -/
def leftAssocLayer (fuel : Nat) (prev : P Expr)
    (opP : P (Expr → Expr → Expr)) : P Expr :=
  pBind prev (fun first =>
    pMap (fun rest => rest.foldl (fun acc cr => cr.1 acc cr.2) first)
      (pMany fuel (pBind opP (fun c => pMap (fun r => (c, r)) prev))))

/-- rightAssociativeBinaryOperatorParser: one operand, then either an
operator followed by a recursive parse of the same layer, or the operand
alone. -/
def rightAssocLayer : Nat → P Expr → P (Expr → Expr → Expr) → P Expr
  | 0, _, _ => pFail
  | fuel + 1, prev, opP =>
      pBind prev (fun left =>
        pOr (pBind opP (fun c =>
              pMap (fun right => c left right) (rightAssocLayer fuel prev opP)))
            (pPure left))

/-- unaryPreFixParser: the operator followed by a recursive parse of the
same layer, or fall through to the previous layer. -/
def unaryLayer : Nat → P Expr → P (Expr → Expr) → P Expr
  | 0, _, _ => pFail
  | fuel + 1, prev, opP =>
      pOr (pBind opP (fun c => pMap c (unaryLayer fuel prev opP)))
          prev

/-- The ternary layer: an operand, then optionally the trimmed token if,
an operand, the trimmed token else, and a recursive parse of the same
layer for the else branch (right-nesting). -/
def condLayer : Nat → P Expr → P Expr
  | 0, _ => pFail
  | fuel + 1, prev =>
      pBind prev (fun a =>
        pOr (pBind (pTrim (pLit "if")) (fun _ =>
              pBind prev (fun c =>
                pBind (pTrim (pLit "else")) (fun _ =>
                  pMap (fun b => Expr.Condition c a b) (condLayer fuel prev)))))
            (pPure a))

mutual

/-- The full expression grammar: the associativity table folded over the
primary parser, tightest binding first (the order of parser.ts). -/
def expressionP : Nat → P Expr
  | 0 => pFail
  | n + 1 =>
      let p0 := primaryP n
      let p1 := rightAssocLayer n p0 expOps
      let p2 := unaryLayer n p1 negOps
      let p3 := leftAssocLayer n p2 mulOps
      let p4 := leftAssocLayer n p3 addOps
      let p5 := leftAssocLayer n p4 relOps
      let p6 := unaryLayer n p5 notOps
      let p7 := leftAssocLayer n p6 andOps
      let p8 := leftAssocLayer n p7 orOps
      let p9 := condLayer n p8
      rightAssocLayer n p9 assignOps

/-- The primary alternation, in the source order: number, boolean,
string, list, apply, index, slice, parenthesized, variable. -/
def primaryP : Nat → P Expr
  | 0 => pFail
  | n + 1 =>
      pAlt [ pMap Expr.Number pNumberLit,
             pBool,
             pMap Expr.String pStringLit,
             listP n,
             applyP n,
             indexP n,
             sliceP n,
             parensP n,
             pMap Expr.Variable pVariableName ]

/-- A parenthesized expression. -/
def parensP : Nat → P Expr
  | 0 => pFail
  | n + 1 =>
      pBind (pLit "(") (fun _ =>
        pBind (expressionP n) (fun e =>
          pMap (fun _ => e) (pLit ")")))

/-- variable-or-parenthesized, an opening bracket, a trimmed expression
and a closing bracket. -/
def indexP : Nat → P Expr
  | 0 => pFail
  | n + 1 =>
      pBind (pOr (pMap Expr.Variable pVariableName) (parensP n)) (fun v =>
        pBind (pLit "[") (fun _ =>
          pBind (pTrim (expressionP n)) (fun i =>
            pMap (fun _ => Expr.Index v i) (pLit "]"))))

/-- variable-or-parenthesized with two colon-separated trimmed bound
expressions in brackets. -/
def sliceP : Nat → P Expr
  | 0 => pFail
  | n + 1 =>
      pBind (pOr (pMap Expr.Variable pVariableName) (parensP n)) (fun v =>
        pBind (pLit "[") (fun _ =>
          pBind (pTrim (expressionP n)) (fun f =>
            pBind (pLit ":") (fun _ =>
              pBind (pTrim (expressionP n)) (fun t =>
                pMap (fun _ => Expr.Slice v f t) (pLit "]"))))))

/-- A list literal: trimmed brackets around comma-separated expressions
(the separator trimmed). -/
def listP : Nat → P Expr
  | 0 => pFail
  | n + 1 =>
      pBind (pTrim (pLit "[")) (fun _ =>
        pBind (pSepBy n (expressionP n) (pBind (pTrim (pLit ",")) (fun _ => pPure ()))) (fun es =>
          pMap (fun _ => Expr.List es) (pTrim (pLit "]"))))

/-- An application: variable-or-parenthesized callee, then parentheses
around the trimmed comma-separated argument list. -/
def applyP : Nat → P Expr
  | 0 => pFail
  | n + 1 =>
      pBind (pOr (pMap Expr.Variable pVariableName) (parensP n)) (fun f =>
        pBind (pLit "(") (fun _ =>
          pBind (pTrim (pSepBy n (expressionP n) (pBind (pTrim (pLit ",")) (fun _ => pPure ())))) (fun args =>
            pMap (fun _ => Expr.Apply f args) (pLit ")"))))

end

/-- expression.tryParse(input): run the grammar over the whole input;
anything but a success consuming every character is a parse failure. -/
def tryParse (s : String) : Option Expr :=
  match expressionP (20 * (s.length + 2)) s.data with
  | some (e, []) => some e
  | _ => none

/-
Theorems for the claims.
-/

/-- C1 counterexample: the claim says a failing right operand of Or must
abort evaluation even when the left operand is True; in the code the ||
operator short-circuits, so Or(True, y) with y unbound succeeds with True
even though resolving y alone fails. -/
theorem C1_or_counterexample :
    resolve (.Or (.Boolean true) (.Variable "y")) [] = (.ok (.bool true), []) ∧
    (resolve (.Variable "y") ([] : Env)).1 = .error (.undefinedVariable "y") :=
  ⟨rfl, rfl⟩

/-- C1 amended: And and Or short-circuit following the JavaScript && and
|| operators: Or returns the left value without evaluating the right
operand when the left resolves truthy, and And does so when the left
resolves falsy. -/
theorem C1_and_or_short_circuit (l r : Expr) (env : Env) (v : Value)
    (env1 : Env) (h : resolve l env = (.ok v, env1)) :
    (truthy v = true → resolve (.Or l r) env = (.ok v, env1)) ∧
    (truthy v = false → resolve (.And l r) env = (.ok v, env1)) := by
  constructor <;> intro ht <;> simp [resolve, h, ht]

theorem C1_and_or_short_circuit_witness :
    (truthy (.bool true) = true →
      resolve (.Or (.Boolean true) (.Variable "y2")) [] = (.ok (.bool true), [])) ∧
    (truthy (.bool true) = false →
      resolve (.And (.Boolean true) (.Variable "y2")) [] = (.ok (.bool true), [])) :=
  C1_and_or_short_circuit (.Boolean true) (.Variable "y2") [] (.bool true) [] rfl

/-- C2: for every pair of operands and every environment the InEquality
node resolves to exactly what the Equality node resolves to: the source
body of InEquality.resolve is the same === comparison, not its
negation. -/
theorem C2_inequality_same_as_equality (l r : Expr) (env : Env) :
    resolve (.InEquality l r) env = resolve (.Equality l r) env := rfl

/-- C3 counterexample: the claim says a mismatched operand tag in
arithmetic fails with a type-mismatch error; in the code Addition on two
strings concatenates and Negate on a boolean coerces it to a number, both
silently. -/
theorem C3_coercion_counterexample :
    resolve (.Addition (.String "a") (.String "b")) [] = (.ok (.str "ab"), []) ∧
    resolve (.Negate (.Boolean true)) [] = (.ok (.num (-1)), []) := by
  constructor <;> with_unfolding_all rfl

/-- C3 amended: the runtime tag checks live only in indexing, slicing and
application (for example indexing a non-list fails with a type-mismatch
error); arithmetic, comparison and logical operators perform no check and
silently coerce operands under JavaScript semantics, Addition
concatenating strings and Negate coercing a boolean to a number. -/
theorem C3_tag_checks_only_for_collections :
    (∀ (l i : Expr) (env : Env) (v : Value) (env1 : Env),
        resolve l env = (.ok v, env1) → (∀ xs, v ≠ .list xs) →
        resolve (.Index l i) env = (.error (.notAnArray v), env1)) ∧
    (∀ (s t : String) (env : Env),
        resolve (.Addition (.String s) (.String t)) env = (.ok (.str (s ++ t)), env)) ∧
    (∀ env : Env,
        resolve (.Negate (.Boolean true)) env = (.ok (.num (-1)), env)) := by
  refine ⟨?_, ?_, ?_⟩
  · intro l i env v env1 h hv
    cases v <;> simp [resolve, h]
    exact absurd rfl (hv _)
  · intro s t env
    simp [resolve, jsAdd, toPrimitive, jsToString]
  · intro env
    rfl

theorem C3_tag_checks_witness :
    resolve (.Index (.Number 3) (.Number 0)) [] = (.error (.notAnArray (.num 3)), []) :=
  C3_tag_checks_only_for_collections.1 (.Number 3) (.Number 0) [] (.num 3) []
    rfl (fun _ h => nomatch h)

/-- C4: an Assignment to a Variable evaluates the right operand first,
writes the value into the shared environment under the literal name,
returns the same value; and the write is visible to the sibling evaluated
afterwards, the parsed (x := 1) + x resolving to 2 in the empty
environment with x left bound to 1. -/
theorem C4_assignment_writes_and_returns :
    (∀ (x : String) (r : Expr) (env : Env) (v : Value) (env1 : Env),
        resolve r env = (.ok v, env1) →
        resolve (.Assignment (.Variable x) r) env = (.ok v, envSet env1 x v)) ∧
    tryParse "(x := 1) + x" =
      some (.Addition (.Assignment (.Variable "x") (.Number 1)) (.Variable "x")) ∧
    resolve (.Addition (.Assignment (.Variable "x") (.Number 1)) (.Variable "x")) [] =
      (.ok (.num 2), [("x", .num 1)]) := by
  refine ⟨?_, by with_unfolding_all rfl, by with_unfolding_all rfl⟩
  intro x r env v env1 h
  simp [resolve, h]

theorem C4_assignment_witness :
    resolve (.Assignment (.Variable "y3") (.Number 7)) [] =
      (.ok (.num 7), envSet [] "y3" (.num 7)) :=
  C4_assignment_writes_and_returns.1 "y3" (.Number 7) [] (.num 7) [] rfl

/-- C5 counterexample: the claim says freeVariables leaves the caller
environment unchanged; analyzing an Assignment in the empty environment
leaves the target bound to null in it. -/
theorem C5_fv_mutation_counterexample :
    freeVariables (.Assignment (.Variable "x") (.Number 1)) [] =
      (.ok [], [("x", .null)]) ∧
    ([("x", Value.null)] : Env) ≠ ([] : Env) :=
  ⟨rfl, by simp⟩

/-- C5 amended: freeVariables uses the caller environment itself as the
scratch binding set: analyzing an Assignment writes a null binding for the
target name directly into the caller environment before analyzing the
right-hand side, and nothing removes it afterwards, so the binding can
remain visible after the call (as it does on the empty environment). -/
theorem C5_fv_scratch_is_callers_env :
    (∀ (x : String) (r : Expr) (env : Env),
        freeVariables (.Assignment (.Variable x) r) env =
          freeVariables r (envSet env x .null)) ∧
    freeVariables (.Assignment (.Variable "x") (.Number 1)) [] =
      (.ok [], [("x", .null)]) :=
  ⟨fun _ _ _ => rfl, rfl⟩

/-- C6: the ternary evaluates the condition and then exactly the taken
branch, so an untaken branch that would fail (an unbound variable) does
not abort the evaluation. -/
theorem C6_condition_short_circuit :
    (∀ (c a b : Expr) (env : Env) (v : Value) (env1 : Env),
        resolve c env = (.ok v, env1) →
        (truthy v = true → resolve (.Condition c a b) env = resolve a env1) ∧
        (truthy v = false → resolve (.Condition c a b) env = resolve b env1)) ∧
    resolve (.Condition (.Boolean true) (.Number 1) (.Variable "zz")) [] =
      (.ok (.num 1), []) ∧
    (resolve (.Variable "zz") ([] : Env)).1 = .error (.undefinedVariable "zz") := by
  refine ⟨?_, rfl, rfl⟩
  intro c a b env v env1 h
  constructor <;> intro ht <;> simp [resolve, h, ht]

theorem C6_condition_witness :
    (truthy (.bool true) = true →
      resolve (.Condition (.Boolean true) (.Number 1) (.Variable "z2")) [] =
        resolve (.Number 1) []) ∧
    (truthy (.bool true) = false →
      resolve (.Condition (.Boolean true) (.Number 1) (.Variable "z2")) [] =
        resolve (.Variable "z2") []) :=
  C6_condition_short_circuit.1 (.Boolean true) (.Number 1) (.Variable "z2")
    [] (.bool true) [] rfl

/-- C7: an Assignment whose left operand is not a Variable fails at
evaluation time with the invalid-assignment-target error and leaves the
environment untouched, while the grammar happily parses 1 := 2. -/
theorem C7_invalid_assignment_target :
    (∀ (l r : Expr) (env : Env), l.isVariableB = false →
        resolve (.Assignment l r) env = (.error .invalidAssignmentTarget, env)) ∧
    tryParse "1 := 2" = some (.Assignment (.Number 1) (.Number 2)) := by
  refine ⟨?_, rfl⟩
  intro l r env h
  cases l <;> simp [Expr.isVariableB] at h <;> rfl

theorem C7_invalid_assignment_witness :
    resolve (.Assignment (.Number 1) (.Number 2)) [] =
      (.error .invalidAssignmentTarget, []) :=
  C7_invalid_assignment_target.1 (.Number 1) (.Number 2) [] rfl

/-- C8: freeVariables on the expression parsed from (x := 1) + x against
the empty environment is the empty set: the assignment target is recorded
as bound before the right-hand side and the rest of the tree are
analyzed. -/
theorem C8_fv_of_assignment_expression_empty :
    tryParse "(x := 1) + x" =
      some (.Addition (.Assignment (.Variable "x") (.Number 1)) (.Variable "x")) ∧
    (freeVariables (.Addition (.Assignment (.Variable "x") (.Number 1))
        (.Variable "x")) []).1 = .ok [] :=
  ⟨rfl, rfl⟩

/-- C9: the ** operator parses right-associatively, 4 ** 3 ** 2 giving
Exponentiate(4, Exponentiate(3, 2)), which resolves to 262144 and not
4096. -/
theorem C9_exponentiation_right_associative :
    tryParse "4 ** 3 ** 2" =
      some (.Exponentiate (.Number 4) (.Exponentiate (.Number 3) (.Number 2))) ∧
    resolve (.Exponentiate (.Number 4) (.Exponentiate (.Number 3) (.Number 2))) [] =
      (.ok (.num 262144), []) := by
  constructor <;> with_unfolding_all rfl

/-- C10: indexing a list with a numeric index out of bounds (negative or
at least the length) resolves to the undefined value instead of an error
or a clamp. -/
theorem C10_index_out_of_bounds (l i : Expr) (env : Env) (xs : List Value)
    (env1 : Env) (q : ℚ) (env2 : Env)
    (hl : resolve l env = (.ok (.list xs), env1))
    (hi : resolve i env1 = (.ok (.num q), env2))
    (hq : q < 0 ∨ (xs.length : ℚ) ≤ q) :
    resolve (.Index l i) env = (.ok .undefined, env2) := by
  suffices hj : jsIndex xs (.num q) = Value.undefined by
    simp [resolve, hl, hi, Value.isNumber, hj]
  simp only [jsIndex]
  by_cases hc : q.den = 1 ∧ 0 ≤ q.num
  · rw [if_pos hc]
    obtain ⟨hden, hnum⟩ := hc
    rcases hq with hq | hq
    · exact absurd (Rat.num_nonneg.mp hnum) (not_le.mpr hq)
    · have hcast : (q.num : ℚ) = q := by
        have h0 := Rat.num_div_den q
        rw [hden] at h0
        simpa using h0
      rw [← hcast] at hq
      have h1 : (xs.length : ℤ) ≤ q.num := by exact_mod_cast hq
      have h2 : xs.get? q.num.toNat = none := by
        rw [List.get?_eq_none]
        omega
      rw [h2]
  · rw [if_neg hc]

theorem C10_index_out_of_bounds_witness :
    resolve (.Index (.List [.Number 1]) (.Number 5)) [] = (.ok .undefined, []) :=
  C10_index_out_of_bounds (.List [.Number 1]) (.Number 5) [] [.num 1] [] 5 []
    (by with_unfolding_all rfl) (by with_unfolding_all rfl)
    (Or.inr (by norm_num))

end Resolver
